import Mathlib

/-
Verification of the civictheme/upgrade-tools repository.

Shallow embedding of the SDC update tool: the subtheme validator
(src/sdc-update/src/lib/validator.js), the configuration store and the
logger / update runner (src/unnamed/part_001: config.js, logger.js,
update.js) and the LLM wrapper (src/sdc-update/scripts/lib/llm-handler.js).

Filesystem and subprocess effects are modelled as oracles: each `fs`
operation is a function from a path to `Except String _`, where
`Except.error e` models the operation throwing a Node.js error whose
`message` is `e`.  JavaScript string operations are modelled on Lean
`String` / `List Char`; `String.length` counts code points where
JavaScript counts UTF-16 units (they agree on the ASCII data used here).
-/

set_option autoImplicit false

/-- `strIncludesAux pat l` is true when `pat` occurs as a contiguous
sublist of `l`; helper for the model of JavaScript
`String.prototype.includes`. -/
def strIncludesAux (pat : List Char) : List Char → Bool
  | [] => pat.isEmpty
  | c :: rest => pat.isPrefixOf (c :: rest) || strIncludesAux pat rest

/-- Model of JavaScript `s.includes(pat)`. -/
def strIncludes (s pat : String) : Bool :=
  strIncludesAux pat.toList s.toList

/-- Model of JavaScript `s.startsWith(pat)`. -/
def strStartsWith (s pat : String) : Bool :=
  pat.toList.isPrefixOf s.toList

/-- Model of JavaScript `s.endsWith(pat)`. -/
def strEndsWith (s pat : String) : Bool :=
  pat.toList.reverse.isPrefixOf s.toList.reverse

/-- Model of JavaScript `s.substring(0, n)`. -/
def strTake (s : String) (n : Nat) : String :=
  String.mk (s.toList.take n)

/-- Split a character list on a separator character (every occurrence),
like `String.prototype.split`. -/
def splitCharList (sep : Char) : List Char → List (List Char)
  | [] => [[]]
  | c :: cs =>
    let r := splitCharList sep cs
    if c = sep then [] :: r
    else
      match r with
      | [] => [[c]]
      | l :: ls => (c :: l) :: ls

/-- Model of Node `path.join(a, b)` for the simple relative segments used
by the tool (no normalization of separators is needed for them). -/
def pathJoin (a b : String) : String := a ++ "/" ++ b

/-- Model of Node `path.basename`: the last `/`-separated component.
(Node also strips a trailing separator first; the inputs the tool passes
are plain directory paths without trailing separators.) -/
def basename (p : String) : String :=
  String.mk ((splitCharList '/' p.toList).getLastD [])

/- ## Subtheme validator (src/sdc-update/src/lib/validator.js) -/

/-- Oracle for the `fs/promises` operations used by the validator.
`access` and `readFile` return `Except.error e` when the underlying call
would reject with an error whose message is `e`; `statIsDir` bundles
`fs.stat(p)` followed by `.isDirectory()`. -/
structure FSIO where
  access : String → Except String Unit
  statIsDir : String → Except String Bool
  readFile : String → Except String String

/-- The five per-check booleans of the `validationResults` object. -/
structure ValidationDetails where
  hasInfoYml : Bool
  hasComponentsDir : Bool
  hasName : Bool
  isThemeType : Bool
  hasCivicThemeBase : Bool
deriving DecidableEq, Repr

/-- Result shape of `validateSubThemeDirectory`; `details = none` models
the empty object `{}` returned from the outer catch. -/
structure ValidationResult where
  valid : Bool
  message : String
  details : Option ValidationDetails
deriving DecidableEq, Repr

/-- The path `path.join(dirPath, dirName + '.info.yml')` built at
validator.js line 41. -/
def infoYmlPath (dirPath : String) : String :=
  pathJoin dirPath (basename dirPath ++ ".info.yml")

/-- Early-return message of validator.js lines 49-53. -/
def missingDescriptorMessage (dirName : String) : String :=
  "Could not find " ++ dirName ++
    ".info.yml file in the directory. This doesn\x27t appear to be a valid Drupal theme."

/-- Success message of validator.js line 119. -/
def validMessage : String :=
  "✅ Valid CivicTheme sub-theme directory with components folder"

/-- The itemized ✅/❌ message of validator.js lines 102-106. -/
def invalidDetailsMessage (r : ValidationDetails) : String :=
  "The directory does not appear to be a valid CivicTheme sub-theme:\n" ++
  (if !r.hasName then "❌ Missing \"name:\" field in .info.yml"
   else "✅ Has name field in .info.yml") ++ "\n" ++
  (if !r.isThemeType then "❌ Missing or incorrect \"type: theme\" field in .info.yml"
   else "✅ Has correct type field in .info.yml") ++ "\n" ++
  (if !r.hasCivicThemeBase then "❌ Missing or incorrect \"base theme: civictheme\" field in .info.yml"
   else "✅ Has correct base theme field in .info.yml") ++ "\n" ++
  (if !r.hasComponentsDir then "❌ Missing components directory (required for Storybook stories)"
   else "✅ Has components directory")

/-- The components-directory check of validator.js lines 56-71:
`fs.access` then `fs.stat(...).isDirectory()`, any error caught and
treated as `false`. -/
def componentsDirCheck (fs : FSIO) (dirPath : String) : Bool :=
  match fs.access (pathJoin dirPath "components") with
  | .error _ => false
  | .ok _ =>
    match fs.statIsDir (pathJoin dirPath "components") with
    | .error _ => false
    | .ok b => b

/-- Body of `validateSubThemeDirectory` (validator.js lines 24-121), i.e.
everything inside the outer `try`.  The return type is `Except` so that an
uncaught throw would be visible as `.error`; every filesystem operation
the body performs is guarded by a `try`/`catch` in the source, which is
why every branch below ends in `.ok`. -/
def validateSubThemeDirectoryBody (fs : FSIO) (dirPath : String) :
    Except String ValidationResult :=
  let dirName := basename dirPath
  match fs.access (infoYmlPath dirPath) with
  | .error _ =>
    .ok { valid := false
        , message := missingDescriptorMessage dirName
        , details := some ⟨false, false, false, false, false⟩ }
  | .ok _ =>
    let d1 : ValidationDetails :=
      ⟨true, componentsDirCheck fs dirPath, false, false, false⟩
    match fs.readFile (infoYmlPath dirPath) with
    | .error e =>
      .ok { valid := false
          , message := "Failed to read or parse " ++ dirName ++ ".info.yml file: " ++ e
          , details := some d1 }
    | .ok ymlContent =>
      let d2 : ValidationDetails :=
        { d1 with
            hasName := strIncludes ymlContent "name:"
          , isThemeType := strIncludes ymlContent "type: theme"
          , hasCivicThemeBase := strIncludes ymlContent "base theme: civictheme" }
      let isValid := d2.hasInfoYml && d2.hasName && d2.isThemeType &&
        d2.hasCivicThemeBase && d2.hasComponentsDir
      if isValid then
        .ok { valid := true, message := validMessage, details := some d2 }
      else
        .ok { valid := false, message := invalidDetailsMessage d2, details := some d2 }

/-- `validateSubThemeDirectory` with its outer catch (validator.js lines
122-129): any error escaping the body is converted to a `valid = false`
result whose message wraps the error message and whose `details` is the
empty object. -/
def validateSubThemeDirectory (fs : FSIO) (dirPath : String) : ValidationResult :=
  match validateSubThemeDirectoryBody fs dirPath with
  | .ok r => r
  | .error e =>
    { valid := false, message := "Error validating directory: " ++ e, details := none }

/- ## Configuration store (config.js in src/unnamed/part_001) -/

/-- Whitespace characters trimmed by the model of string trimming (the
ASCII subset of the whitespace JavaScript `trim` removes; the values the
tool handles contain no exotic whitespace). -/
def isSpaceChar (c : Char) : Bool :=
  c = ' ' || c = '\t' || c = '\n' || c = '\r'

/-- Trim leading and trailing whitespace from a character list. -/
def trimList (l : List Char) : List Char :=
  ((l.dropWhile isSpaceChar).reverse.dropWhile isSpaceChar).reverse

/-- Split a character list at the first occurrence of a separator;
`none` when the separator does not occur. -/
def splitFirstChar (sep : Char) : List Char → Option (List Char × List Char)
  | [] => none
  | c :: cs =>
    if c = sep then some ([], cs)
    else
      match splitFirstChar sep cs with
      | none => none
      | some (a, b) => some (c :: a, b)

/-- A single-quote character, written by code point. -/
def squote : Char := Char.ofNat 39

/-- A backtick character, written by code point. -/
def backquote : Char := Char.ofNat 96

/-- Quote characters recognized by the dotenv value parse: double quote,
single quote and backtick (dotenv strips a value wrapped in any matching
pair of these). -/
def isQuoteChar (c : Char) : Bool := c = '"' || c = squote || c = backquote

/-- Model of the external `dotenv` library: how one raw value (the text
after the first `=`) is parsed.  Per dotenv's documented behavior: the
value is trimmed; a value wrapped in a matching pair of quote characters
(double quote, single quote or backtick) keeps its inner text verbatim
(escape expansion inside double quotes is not modelled — no claim
exercises it); an unquoted value is cut at the first `#` (inline
comment) and trimmed. -/
def dotenvParseValueL (raw : List Char) : List Char :=
  match trimList raw with
  | c1 :: c2 :: cs =>
    if isQuoteChar c1 && ((c2 :: cs).getLast? == some c1) then
      (c2 :: cs).dropLast
    else
      trimList ((trimList raw).takeWhile (fun c => c != '#'))
  | _ => trimList ((trimList raw).takeWhile (fun c => c != '#'))

/-- Model of the external `dotenv` parse of one line: split at the first
`=`, trim the key, parse the value; a line without `=` or with an empty
key yields nothing. -/
def dotenvParseLineL (line : List Char) : Option (String × String) :=
  match splitFirstChar '=' line with
  | none => none
  | some (k, v) =>
    if trimList k = [] then none
    else some (String.mk (trimList k), String.mk (dotenvParseValueL v))

/-- Model of the external `dotenv` parse of a whole file: split into
lines and parse each line. -/
def dotenvParse (content : String) : List (String × String) :=
  (splitCharList '\n' content.toList).filterMap dotenvParseLineL

/-- Model of `dotenv.config`'s effect on `process.env`: each parsed key
is added only when not already present (dotenv never overrides an
existing environment variable). -/
def dotenvPopulate (env : List (String × String)) (content : String) :
    List (String × String) :=
  (dotenvParse content).foldl
    (fun acc kv =>
      match acc.lookup kv.1 with
      | some _ => acc
      | none => acc ++ [kv])
    env

/-- Read `process.env.key || ''` (an absent variable is `undefined`,
which `|| ''` turns into the empty string). -/
def envGet (env : List (String × String)) (key : String) : String :=
  (env.lookup key).getD ""

/-- JavaScript `a || b` on strings: the empty string is falsy. -/
def jsOr (a b : String) : String := if a = "" then b else a

/-- The configuration record returned by `loadConfig`. -/
structure Config where
  subthemeDirectory : String
  anthropicApiKey : String
  anthropicModel : String
  configExists : Bool
deriving DecidableEq, Repr

/-- Default model name (config.js lines 602/611/631). -/
def defaultModel : String := "claude-3-5-sonnet-20241022"

/-- Model of `loadConfig` (config.js lines 589-617).  `fileContent` is
the content of `.env` when the file exists and is accessible, `none` when
`fs.access` rejects with ENOENT; `env0` is the pre-existing
`process.env`. -/
def loadConfig (fileContent : Option String) (env0 : List (String × String)) : Config :=
  match fileContent with
  | none =>
    { subthemeDirectory := ""
    , anthropicApiKey := ""
    , anthropicModel := defaultModel
    , configExists := false }
  | some content =>
    let env := dotenvPopulate env0 content
    { subthemeDirectory := jsOr (envGet env "SUBTHEME_DIRECTORY") ""
    , anthropicApiKey := jsOr (envGet env "ANTHROPIC_API_KEY") ""
    , anthropicModel := jsOr (envGet env "ANTHROPIC_MODEL") defaultModel
    , configExists := true }

/-- A settings value on which the dotenv parse is the identity: no
surrounding whitespace, no line break, no `#` (inline comment start),
and not opening with a quote character. -/
def benignValue (v : String) : Prop :=
  trimList v.toList = v.toList ∧ '\n' ∉ v.toList ∧ '\r' ∉ v.toList ∧ '#' ∉ v.toList ∧
  v.toList.head?.all (fun c => !isQuoteChar c) = true

instance benignValueDecidable (v : String) : Decidable (benignValue v) := by
  unfold benignValue
  infer_instance

/-- Result shape of `validateConfig`. -/
structure ConfigCheck where
  valid : Bool
  message : String
deriving DecidableEq, Repr

/-- Message for a missing settings file (config.js line 648). -/
def msgNoFile : String :=
  "Configuration file not found. Please configure the application first."

/-- Message for a missing directory value (config.js line 655). -/
def msgNoDir : String :=
  "Subtheme directory not configured. Please configure the application first."

/-- Message for a missing API key (config.js line 662). -/
def msgNoKey : String :=
  "Anthropic API key not configured. Please configure the application first."

/-- Message for an inaccessible subtheme directory (config.js line 671). -/
def msgNoAccess (e : String) : String :=
  "Cannot access subtheme directory: " ++ e

/-- Message for a valid configuration (config.js line 675). -/
def msgConfigValid : String := "Configuration is valid"

/-- Model of `validateConfig` (config.js lines 642-676): load the
configuration, then check in order that the file existed, the directory
value and the API key are non-empty, and `fs.access` on the directory
succeeds. -/
def validateConfig (fileContent : Option String) (env0 : List (String × String))
    (access : String → Except String Unit) : ConfigCheck :=
  let config := loadConfig fileContent env0
  if !config.configExists then ⟨false, msgNoFile⟩
  else if config.subthemeDirectory = "" then ⟨false, msgNoDir⟩
  else if config.anthropicApiKey = "" then ⟨false, msgNoKey⟩
  else
    match access config.subthemeDirectory with
    | .error e => ⟨false, msgNoAccess e⟩
    | .ok _ => ⟨true, msgConfigValid⟩

/- ## Logger (logger.js in src/unnamed/part_001) -/

/-- A file in the log directory: its name and its modification time
(`stats.mtime.getTime()`), as seen by `rotateLogFiles`. -/
structure LogFile where
  name : String
  mtime : Nat
deriving DecidableEq, Repr

/-- `MAX_LOG_FILES` (logger.js line 317). -/
def MAX_LOG_FILES : Nat := 10

/-- The session-file naming pattern filter of logger.js line 377. -/
def isSessionLogName (n : String) : Bool :=
  strStartsWith n "sdc-update-" && strEndsWith n ".log"

/-- Insert a file into a list already sorted by modification time
descending, after any file with the same or a newer time (stable). -/
def insertByMtimeDesc (f : LogFile) : List LogFile → List LogFile
  | [] => [f]
  | g :: gs => if g.mtime < f.mtime then f :: g :: gs else g :: insertByMtimeDesc f gs

/-- Model of `logFiles.sort((a, b) => b.stats.mtime - a.stats.mtime)`:
a stable sort by modification time descending. -/
def sortByMtimeDesc (l : List LogFile) : List LogFile :=
  l.foldr insertByMtimeDesc []

/-- Model of `rotateLogFiles` (logger.js lines 372-410) as a transform of
the log directory contents: filter the files matching the session
pattern, sort them by modification time descending, delete the ones past
index `MAX_LOG_FILES`; all other files survive. -/
def rotateLogFiles (files : List LogFile) : List LogFile :=
  let logFiles := files.filter (fun f => isSessionLogName f.name)
  let sorted := sortByMtimeDesc logFiles
  let deleted := sorted.drop MAX_LOG_FILES
  files.filter (fun f => decide (f ∉ deleted))

/-- Model of `initLogger` (logger.js lines 327-365) as a transform of the
log directory contents: the new session file name is built from the
timestamp, rotation runs first (the new file is not on disk yet), then
the header write creates the new file with the current time `now`. -/
def initLogger (files : List LogFile) (timestamp : String) (now : Nat) : List LogFile :=
  let newName := "sdc-update-" ++ timestamp ++ ".log"
  rotateLogFiles files ++ [⟨newName, now⟩]

/-- Log levels (logger.js lines 304-310). -/
inductive LogLevel where
  | DEBUG
  | INFO
  | SUCCESS
  | WARNING
  | ERROR
deriving DecidableEq, Repr

/- ## Update runner (update.js in src/unnamed/part_001) -/

/-- A step descriptor from `UPDATE_STEPS` (the fields the runner control
flow uses). -/
structure UpdateStep where
  id : String
  name : String
  script : String
deriving DecidableEq, Repr

/-- Model of `runScript`'s interpreter dispatch (update.js lines 96-130):
check the script exists, then pick the interpreter by extension;
`.ok (command, args)` means the runner goes on to spawn that command,
`.error msg` means `runScript` throws before spawning anything. -/
def runScriptDispatch (access : String → Except String Unit) (scriptPath : String) :
    Except String (String × List String) :=
  match access scriptPath with
  | .error _ => .error ("Script not found: " ++ scriptPath)
  | .ok _ =>
    if strEndsWith scriptPath ".mjs" then .ok ("node", [scriptPath])
    else if strEndsWith scriptPath ".sh" then .ok ("bash", [scriptPath])
    else .error ("Unsupported script type: " ++ scriptPath)

/-- The step loop of `runUpdate` (update.js lines 225-267), with the
outcome of executing each step's script given by the oracle `exec`
(`.ok (stdout, stderr)` on success, `.error msg` when `runScript` throws
with message `msg`).  Returns the 1-based numbers of the steps that were
started, and the message of the error thrown from the loop (`none` when
all steps succeeded).  On a failure the loop rethrows
`Step <n> failed: <msg>` and no later step starts. -/
def runUpdateLoop (exec : String → Except String (String × String)) :
    Nat → List UpdateStep → List Nat × Option String
  | _, [] => ([], none)
  | n, s :: rest =>
    match exec s.script with
    | .ok _ =>
      let r := runUpdateLoop exec (n + 1) rest
      (n :: r.1, r.2)
    | .error e => ([n], some ("Step " ++ toString n ++ " failed: " ++ e))

/-- `runUpdate`'s step sequence, starting at step number 1. -/
def runUpdateSteps (exec : String → Except String (String × String))
    (steps : List UpdateStep) : List Nat × Option String :=
  runUpdateLoop exec 1 steps

/-- What the success branch of the step loop (update.js lines 241-254)
emits: the console lines and the (level, message) session-file entries,
as functions of the step number and the captured stdout/stderr. -/
structure StepReport where
  console : List String
  fileLog : List (LogLevel × String)
deriving DecidableEq, Repr

/-- The fixed stdout display threshold of update.js line 244. -/
def STDOUT_DISPLAY_LIMIT : Nat := 500

/-- Model of the success branch of the step loop (update.js lines
241-254); `stdout.length` is modelled by `String.length`. -/
def stepSuccessOutput (stepNumber : Nat) (stdout stderr : String) : StepReport :=
  let stdoutFile : List (LogLevel × String) :=
    if stdout ≠ "" then
      [(LogLevel.DEBUG, "Step " ++ toString stepNumber ++ " stdout: " ++ stdout)]
    else []
  let stdoutConsole : List String :=
    if stdout ≠ "" then
      if stdout.length < STDOUT_DISPLAY_LIMIT then [stdout]
      else ["Script output (" ++ toString stdout.length ++ " characters) - see log file for details"]
    else []
  let stderrFile : List (LogLevel × String) :=
    if stderr ≠ "" then
      [(LogLevel.WARNING, "Step " ++ toString stepNumber ++ " stderr: " ++ stderr)]
    else []
  let stderrConsole : List String :=
    if stderr ≠ "" then
      ["Warning output: " ++ strTake stderr 200 ++ (if 200 < stderr.length then "..." else "")]
    else []
  ⟨stdoutConsole ++ stderrConsole, stdoutFile ++ stderrFile⟩

/- ## LLM wrapper (src/sdc-update/scripts/lib/llm-handler.js) -/

/-- The part of a service response `analyze` reads: the list of content
blocks (each with its `text`). -/
structure APIResponse where
  content : List String
deriving DecidableEq, Repr

/-- The `TypeError` message JavaScript produces for
`response.content[0].text` when `content` is empty. -/
def undefinedTextError : String :=
  "Cannot read properties of undefined (reading \x27text\x27)"

/-- Model of `LLMHandler.analyze` (llm-handler.js lines 39-58).  `svc i`
is the outcome of the `i`-th outbound `messages.create` call; the second
component of the result counts the outbound calls made, so `1` states
that exactly one request is sent whatever the outcome (no retry).  On
success the first content block's text is returned; any error is caught
and rethrown as `API Error: <message>`. -/
def analyze (svc : Nat → Except String APIResponse) :
    Except String String × Nat :=
  match svc 0 with
  | .ok response =>
    match response.content with
    | [] => (.error ("API Error: " ++ undefinedTextError), 1)
    | t :: _ => (.ok t, 1)
  | .error e => (.error ("API Error: " ++ e), 1)

/- ## Concrete fixtures used by witnesses and counterexamples -/

/-- Fifteen pre-existing session log files with distinct ascending
modification times, the fixture of the rotation boundary test. -/
def files15 : List LogFile :=
  [⟨"sdc-update-01.log", 1⟩, ⟨"sdc-update-02.log", 2⟩, ⟨"sdc-update-03.log", 3⟩,
   ⟨"sdc-update-04.log", 4⟩, ⟨"sdc-update-05.log", 5⟩, ⟨"sdc-update-06.log", 6⟩,
   ⟨"sdc-update-07.log", 7⟩, ⟨"sdc-update-08.log", 8⟩, ⟨"sdc-update-09.log", 9⟩,
   ⟨"sdc-update-10.log", 10⟩, ⟨"sdc-update-11.log", 11⟩, ⟨"sdc-update-12.log", 12⟩,
   ⟨"sdc-update-13.log", 13⟩, ⟨"sdc-update-14.log", 14⟩, ⟨"sdc-update-15.log", 15⟩]

/-- A filesystem where every operation fails (in particular the theme
descriptor file is inaccessible). -/
def fsNoInfo : FSIO :=
  ⟨fun _ => Except.error "ENOENT", fun _ => Except.error "ENOENT", fun _ => Except.error "ENOENT"⟩

/-- A filesystem where files exist and `components` is a directory but
reading any file fails with EACCES. -/
def fsReadFail : FSIO :=
  ⟨fun _ => Except.ok (), fun _ => Except.ok true, fun _ => Except.error "EACCES: permission denied"⟩

theorem toList_append (a b : String) : (a ++ b).toList = a.toList ++ b.toList := rfl

theorem strIncludesAux_of_isPrefixOf (pat l : List Char) (h : pat.isPrefixOf l = true) :
    strIncludesAux pat l = true := by
  cases l with
  | nil =>
    cases pat with
    | nil => rfl
    | cons c cs => simp [List.isPrefixOf] at h
  | cons c rest => simp [strIncludesAux, h]

theorem strIncludes_of_prefix (s pat : String) (h : pat.toList <+: s.toList) :
    strIncludes s pat = true :=
  strIncludesAux_of_isPrefixOf _ _ (List.isPrefixOf_iff_prefix.mpr h)

theorem strIncludesAux_append (pat : List Char) :
    ∀ a : List Char, strIncludesAux pat (a ++ pat) = true
  | [] =>
    strIncludesAux_of_isPrefixOf _ _ (List.isPrefixOf_iff_prefix.mpr (List.prefix_refl _))
  | c :: a' => by
    show (pat.isPrefixOf (c :: (a' ++ pat)) || strIncludesAux pat (a' ++ pat)) = true
    rw [strIncludesAux_append pat a', Bool.or_true]

theorem strIncludes_append_suffix (a pat : String) : strIncludes (a ++ pat) pat = true := by
  unfold strIncludes
  rw [toList_append]
  exact strIncludesAux_append _ _

theorem string_append_ne (a e m : String) (i : Nat) (hi : i < a.toList.length)
    (h : a.toList[i]? ≠ m.toList[i]?) : a ++ e ≠ m := by
  intro heq
  apply h
  have h2 : a.toList ++ e.toList = m.toList := congrArg String.toList heq
  rw [← h2, List.getElem?_append, if_pos hi]

theorem runUpdateLoop_shape (exec : String → Except String (String × String)) :
    ∀ (steps : List UpdateStep) (n : Nat),
      ∃ k, (runUpdateLoop exec n steps).1 = List.range' n k ∧ k ≤ steps.length ∧
        ∀ j, j + 1 < k → ∃ s o, steps[j]? = some s ∧ exec s.script = Except.ok o
  | [], n => ⟨0, rfl, Nat.le_refl 0, fun _ hj => absurd hj (by omega)⟩
  | s :: rest, n => by
    cases h : exec s.script with
    | ok o =>
      obtain ⟨k, hk, hkle, hok⟩ := runUpdateLoop_shape exec rest (n + 1)
      refine ⟨k + 1, ?_, by simpa using Nat.succ_le_succ hkle, ?_⟩
      · show (runUpdateLoop exec n (s :: rest)).1 = List.range' n (k + 1)
        simp [runUpdateLoop, h, hk, List.range'_succ]
      · intro j hj
        cases j with
        | zero => exact ⟨s, o, by simp, h⟩
        | succ j' =>
          obtain ⟨s', o', hs', ho'⟩ := hok j' (by omega)
          exact ⟨s', o', by simpa using hs', ho'⟩
    | error e =>
      refine ⟨1, ?_, by simp, fun _ hj => absurd hj (by omega)⟩
      simp [runUpdateLoop, h, List.range']

/-- C1 (amended): the runner executes the steps strictly in order and
aborts on the first failure; with step 1 succeeding and step 2 failing,
steps 1 and 2 execute, step 3 never starts, and the propagated error
identifies the failing step by its 1-based number (`Step 2 failed: ...`),
not by its display name.  The second conjunct is the general ordering
property: whenever step `i + 1` started, step `i` started and its script
succeeded. -/
theorem runUpdate_order_and_abort :
    (∀ (exec : String → Except String (String × String)) (a b c : UpdateStep)
        (o : String × String) (e : String),
        exec a.script = Except.ok o → exec b.script = Except.error e →
        runUpdateSteps exec [a, b, c] = ([1, 2], some ("Step 2 failed: " ++ e)))
    ∧ (∀ (exec : String → Except String (String × String)) (steps : List UpdateStep) (i : Nat),
        1 ≤ i → i + 1 ∈ (runUpdateSteps exec steps).1 →
        i ∈ (runUpdateSteps exec steps).1 ∧
          ∃ s o, steps[i - 1]? = some s ∧ exec s.script = Except.ok o) := by
  constructor
  · intro exec a b c o e ha hb
    have hstr : ∀ e' : String, "Step " ++ toString (2 : Nat) ++ " failed: " ++ e' =
        "Step 2 failed: " ++ e' := by
      intro e'
      exact congrArg (· ++ e') (by decide)
    simp [runUpdateSteps, runUpdateLoop, ha, hb, hstr]
  · intro exec steps i h1 hmem
    obtain ⟨k, hk, _, hok⟩ := runUpdateLoop_shape exec steps 1
    simp only [runUpdateSteps] at hmem ⊢
    rw [hk] at hmem ⊢
    rw [List.mem_range'] at hmem
    obtain ⟨j, hj, hij⟩ := hmem
    have hik : i < k := by omega
    constructor
    · rw [List.mem_range']
      exact ⟨i - 1, by omega, by omega⟩
    · exact hok (i - 1) (by omega)

/-- C1 counterexample: in a concrete three-step run whose second step is
named "beta" and fails with message "boom", the propagated error is
`Step 2 failed: boom`, which does not contain the step name; steps 1 and
2 executed and step 3 never started. -/
theorem runUpdate_error_lacks_step_name :
    runUpdateSteps (fun p => if p = "b.sh" then Except.error "boom" else Except.ok ("", ""))
        [⟨"step1", "alpha", "a.sh"⟩, ⟨"step2", "beta", "b.sh"⟩, ⟨"step3", "gamma", "c.sh"⟩]
      = ([1, 2], some "Step 2 failed: boom")
    ∧ strIncludes "Step 2 failed: boom" "beta" = false := by
  exact ⟨by decide, by decide⟩

/-- C1 witness: the amended sequencing theorem applied to the same
concrete three-step run. -/
theorem runUpdate_order_and_abort_witness :
    runUpdateSteps (fun p => if p = "c.sh" then Except.error "crash" else Except.ok ("out", ""))
        [⟨"step1", "alpha", "a.sh"⟩, ⟨"step2", "beta", "c.sh"⟩, ⟨"step3", "gamma", "g.sh"⟩]
      = ([1, 2], some ("Step 2 failed: " ++ "crash")) :=
  runUpdate_order_and_abort.1
    (fun p => if p = "c.sh" then Except.error "crash" else Except.ok ("out", ""))
    ⟨"step1", "alpha", "a.sh"⟩ ⟨"step2", "beta", "c.sh"⟩ ⟨"step3", "gamma", "g.sh"⟩
    ("out", "") "crash" rfl rfl

/-- C2: evaluating the logger initialization at the boundary fixture:
15 pre-existing session files with distinct modification times and the
cap `MAX_LOG_FILES = 10` leave **11** session files after `initLogger`
(the 10 most recently modified pre-existing ones plus the newly created
session file), not the 10 the specification states. -/
theorem logger_rotation_leaves_eleven :
    ((initLogger files15 "16" 16).filter (fun f => isSessionLogName f.name)).length = 11
    ∧ (initLogger files15 "16" 16).map LogFile.mtime
        = [6, 7, 8, 9, 10, 11, 12, 13, 14, 15, 16] := by
  exact ⟨by decide, by decide⟩

/-- C7: each `analyze` call makes exactly one outbound service call (no
retry); on success it returns the text of the first content block of the
response; on any error it rethrows the original error message behind the
fixed prefix `API Error: `. -/
theorem analyze_contract (svc : Nat → Except String APIResponse) :
    (analyze svc).2 = 1
    ∧ (∀ (r : APIResponse) (t : String) (ts : List String),
        svc 0 = Except.ok r → r.content = t :: ts → (analyze svc).1 = Except.ok t)
    ∧ (∀ e : String, svc 0 = Except.error e →
        (analyze svc).1 = Except.error ("API Error: " ++ e)) := by
  refine ⟨?_, ?_, ?_⟩
  · cases h : svc 0 with
    | ok r => cases hr : r.content <;> simp [analyze, h, hr]
    | error e => simp [analyze, h]
  · intro r t ts h hr
    simp [analyze, h, hr]
  · intro e h
    simp [analyze, h]

/-- C7 witness: the contract evaluated on a concrete success response
and a concrete transport error. -/
theorem analyze_contract_witness :
    (analyze fun _ => Except.ok ⟨["schema text"]⟩).2 = 1
    ∧ (analyze fun _ => Except.ok ⟨["schema text"]⟩).1 = Except.ok "schema text"
    ∧ (analyze fun _ => Except.error "quota exceeded").1
        = Except.error ("API Error: " ++ "quota exceeded") :=
  ⟨(analyze_contract fun _ => Except.ok ⟨["schema text"]⟩).1,
   (analyze_contract fun _ => Except.ok ⟨["schema text"]⟩).2.1
     ⟨["schema text"]⟩ "schema text" [] rfl rfl,
   (analyze_contract fun _ => Except.error "quota exceeded").2.2 "quota exceeded" rfl⟩

/-- C10: for an existing script, `runScript` dispatches `.mjs` paths via
`node` and `.sh` paths via `bash`; for any other extension it throws
`Unsupported script type: <path>` (a message containing the fixed text
and the path) without spawning any process. -/
theorem runScript_extension_dispatch (access : String → Except String Unit) (p : String)
    (hacc : access p = Except.ok ()) :
    (strEndsWith p ".mjs" = true → runScriptDispatch access p = Except.ok ("node", [p]))
    ∧ (strEndsWith p ".mjs" = false → strEndsWith p ".sh" = true →
        runScriptDispatch access p = Except.ok ("bash", [p]))
    ∧ (strEndsWith p ".mjs" = false → strEndsWith p ".sh" = false →
        runScriptDispatch access p = Except.error ("Unsupported script type: " ++ p)
        ∧ strIncludes ("Unsupported script type: " ++ p) "Unsupported script type" = true
        ∧ strIncludes ("Unsupported script type: " ++ p) p = true) := by
  refine ⟨?_, ?_, ?_⟩
  · intro h1
    simp [runScriptDispatch, hacc, h1]
  · intro h1 h2
    simp [runScriptDispatch, hacc, h1, h2]
  · intro h1 h2
    refine ⟨by simp [runScriptDispatch, hacc, h1, h2], ?_, strIncludes_append_suffix _ _⟩
    apply strIncludes_of_prefix
    rw [toList_append]
    exact List.IsPrefix.trans
      (List.isPrefixOf_iff_prefix.mp (by decide)) (List.prefix_append _ _)

/-- C10 witness: the dispatch evaluated at an existing `.py` path, an
existing `.mjs` path and an existing `.sh` path. -/
theorem runScript_extension_dispatch_witness :
    runScriptDispatch (fun _ => Except.ok ()) "scripts/step.py"
      = Except.error ("Unsupported script type: " ++ "scripts/step.py")
    ∧ runScriptDispatch (fun _ => Except.ok ()) "scripts/step2-update-twig.mjs"
      = Except.ok ("node", ["scripts/step2-update-twig.mjs"])
    ∧ runScriptDispatch (fun _ => Except.ok ()) "scripts/step1-update-storybook.sh"
      = Except.ok ("bash", ["scripts/step1-update-storybook.sh"]) :=
  ⟨((runScript_extension_dispatch (fun _ => Except.ok ()) "scripts/step.py" rfl).2.2
      (by decide) (by decide)).1,
   (runScript_extension_dispatch (fun _ => Except.ok ()) "scripts/step2-update-twig.mjs" rfl).1
     (by decide),
   (runScript_extension_dispatch (fun _ => Except.ok ()) "scripts/step1-update-storybook.sh" rfl).2.1
     (by decide) (by decide)⟩

/-- C8 counterexample: on a successful step with stdout "ok" and stderr
"warn", the session-file entries are the stdout line at DEBUG and the
stderr line at WARNING — no DEBUG entry carries the stderr; and with an
empty stdout nothing at all is logged at DEBUG. -/
theorem step_success_stderr_not_debug :
    (stepSuccessOutput 2 "ok" "warn").fileLog =
      [(LogLevel.DEBUG, "Step 2 stdout: ok"), (LogLevel.WARNING, "Step 2 stderr: warn")]
    ∧ (∀ p ∈ (stepSuccessOutput 2 "ok" "warn").fileLog,
        strIncludes p.2 "warn" = true → p.1 ≠ LogLevel.DEBUG)
    ∧ (∀ p ∈ (stepSuccessOutput 2 "" "warn").fileLog, p.1 ≠ LogLevel.DEBUG) := by
  exact ⟨by decide, by decide, by decide⟩

/-- C8 (amended): on a successful step the runner prints the stdout to
the console only when it is non-empty and below the 500-character
threshold, otherwise it prints only the output length and a pointer to
the log file; it writes the full stdout to the session log at DEBUG when
non-empty, and the full stderr at WARNING (not DEBUG) when non-empty;
when stdout is empty no DEBUG entry is written. -/
theorem step_success_reporting (n : Nat) (out err : String) :
    (out ≠ "" → out.length < STDOUT_DISPLAY_LIMIT →
      (stepSuccessOutput n out err).console.head? = some out)
    ∧ (out ≠ "" → STDOUT_DISPLAY_LIMIT ≤ out.length →
      (stepSuccessOutput n out err).console.head? =
        some ("Script output (" ++ toString out.length ++ " characters) - see log file for details"))
    ∧ (out ≠ "" →
      (LogLevel.DEBUG, "Step " ++ toString n ++ " stdout: " ++ out)
        ∈ (stepSuccessOutput n out err).fileLog)
    ∧ (err ≠ "" →
      (LogLevel.WARNING, "Step " ++ toString n ++ " stderr: " ++ err)
        ∈ (stepSuccessOutput n out err).fileLog)
    ∧ (out = "" → ∀ p ∈ (stepSuccessOutput n out err).fileLog, p.1 = LogLevel.WARNING) := by
  refine ⟨?_, ?_, ?_, ?_, ?_⟩
  · intro h1 h2
    simp [stepSuccessOutput, h1, h2]
  · intro h1 h2
    simp [stepSuccessOutput, h1, Nat.not_lt.mpr h2]
  · intro h1
    simp [stepSuccessOutput, h1]
  · intro h2
    by_cases h1 : out = "" <;> simp [stepSuccessOutput, h1, h2]
  · intro h1 p hp
    by_cases h2 : err = "" <;> simp [stepSuccessOutput, h1, h2] at hp
    rw [hp]

/-- C8 witness: the reporting contract evaluated at a concrete small
stdout and non-empty stderr. -/
theorem step_success_reporting_witness :
    (stepSuccessOutput 3 "done" "deprecation warning").console.head? = some "done"
    ∧ (LogLevel.DEBUG, "Step " ++ toString (3 : Nat) ++ " stdout: " ++ "done")
        ∈ (stepSuccessOutput 3 "done" "deprecation warning").fileLog
    ∧ (LogLevel.WARNING, "Step " ++ toString (3 : Nat) ++ " stderr: " ++ "deprecation warning")
        ∈ (stepSuccessOutput 3 "done" "deprecation warning").fileLog :=
  ⟨(step_success_reporting 3 "done" "deprecation warning").1 (by decide) (by decide),
   (step_success_reporting 3 "done" "deprecation warning").2.2.1 (by decide),
   (step_success_reporting 3 "done" "deprecation warning").2.2.2.1 (by decide)⟩

/-- C6: when the theme descriptor `<basename>.info.yml` is inaccessible,
`validateSubThemeDirectory` returns the fixed missing-descriptor failure
with all detail booleans false — a constant result, so no further check
(substring or components-directory) can influence it. -/
theorem validator_missing_descriptor (fs : FSIO) (p e : String)
    (h : fs.access (infoYmlPath p) = Except.error e) :
    validateSubThemeDirectory fs p =
      { valid := false
      , message := missingDescriptorMessage (basename p)
      , details := some ⟨false, false, false, false, false⟩ } := by
  simp [validateSubThemeDirectory, validateSubThemeDirectoryBody, h]

/-- C6 witness: the missing-descriptor theorem evaluated on a filesystem
where every access fails. -/
theorem validator_missing_descriptor_witness :
    validateSubThemeDirectory fsNoInfo "/home/user/mytheme" =
      { valid := false
      , message := missingDescriptorMessage (basename "/home/user/mytheme")
      , details := some ⟨false, false, false, false, false⟩ } :=
  validator_missing_descriptor fsNoInfo "/home/user/mytheme" "ENOENT" rfl

/-- C3: `validateSubThemeDirectory` returns `valid = true` exactly when
the descriptor file is accessible and readable, its text contains the
three required substrings, and the `components` entry exists and is a
directory; and the returned report always carries one boolean per check,
with overall validity equal to their conjunction. -/
theorem validator_valid_iff (fs : FSIO) (p : String) :
    ((validateSubThemeDirectory fs p).valid = true ↔
      (fs.access (infoYmlPath p) = Except.ok () ∧
       ∃ yml, fs.readFile (infoYmlPath p) = Except.ok yml ∧
         strIncludes yml "name:" = true ∧
         strIncludes yml "type: theme" = true ∧
         strIncludes yml "base theme: civictheme" = true ∧
         componentsDirCheck fs p = true))
    ∧ ∃ d, (validateSubThemeDirectory fs p).details = some d ∧
        (validateSubThemeDirectory fs p).valid =
          (d.hasInfoYml && d.hasName && d.isThemeType &&
            d.hasCivicThemeBase && d.hasComponentsDir) := by
  cases h1 : fs.access (infoYmlPath p) with
  | error e =>
    refine ⟨by simp [validateSubThemeDirectory, validateSubThemeDirectoryBody, h1], ?_⟩
    exact ⟨⟨false, false, false, false, false⟩,
      by simp [validateSubThemeDirectory, validateSubThemeDirectoryBody, h1],
      by simp [validateSubThemeDirectory, validateSubThemeDirectoryBody, h1]⟩
  | ok u =>
    cases u
    cases h2 : fs.readFile (infoYmlPath p) with
    | error e =>
      refine ⟨by simp [validateSubThemeDirectory, validateSubThemeDirectoryBody, h1, h2], ?_⟩
      refine ⟨⟨true, componentsDirCheck fs p, false, false, false⟩,
        by simp [validateSubThemeDirectory, validateSubThemeDirectoryBody, h1, h2],
        by simp [validateSubThemeDirectory, validateSubThemeDirectoryBody, h1, h2]⟩
    | ok yml =>
      constructor
      · cases hn : strIncludes yml "name:" <;> cases ht : strIncludes yml "type: theme" <;>
          cases hb : strIncludes yml "base theme: civictheme" <;>
          cases hc : componentsDirCheck fs p <;>
          simp [validateSubThemeDirectory, validateSubThemeDirectoryBody, h1, h2, hn, ht, hb, hc]
      · refine ⟨⟨true, componentsDirCheck fs p, strIncludes yml "name:",
          strIncludes yml "type: theme", strIncludes yml "base theme: civictheme"⟩, ?_, ?_⟩ <;>
          cases hn : strIncludes yml "name:" <;> cases ht : strIncludes yml "type: theme" <;>
          cases hb : strIncludes yml "base theme: civictheme" <;>
          cases hc : componentsDirCheck fs p <;>
          simp [validateSubThemeDirectory, validateSubThemeDirectoryBody, h1, h2, hn, ht, hb, hc]

/-- C9: the body of `validateSubThemeDirectory` (everything inside the
outer try) never throws, whatever each filesystem operation does, so the
function is total at its interface and always returns a structured
result; a read failure on the descriptor is converted into a
`valid = false` result whose message carries the error message, and an
access failure on the descriptor is converted into a `valid = false`
result. -/
theorem validator_never_throws (fs : FSIO) (p : String) :
    validateSubThemeDirectoryBody fs p = Except.ok (validateSubThemeDirectory fs p)
    ∧ (∀ e, fs.access (infoYmlPath p) = Except.ok () →
        fs.readFile (infoYmlPath p) = Except.error e →
        (validateSubThemeDirectory fs p).valid = false
        ∧ strIncludes (validateSubThemeDirectory fs p).message e = true)
    ∧ (∀ e, fs.access (infoYmlPath p) = Except.error e →
        (validateSubThemeDirectory fs p).valid = false) := by
  refine ⟨?_, ?_, ?_⟩
  · cases h1 : fs.access (infoYmlPath p) with
    | error e => simp [validateSubThemeDirectory, validateSubThemeDirectoryBody, h1]
    | ok u =>
      cases u
      cases h2 : fs.readFile (infoYmlPath p) with
      | error e => simp [validateSubThemeDirectory, validateSubThemeDirectoryBody, h1, h2]
      | ok yml =>
        cases hn : strIncludes yml "name:" <;> cases ht : strIncludes yml "type: theme" <;>
          cases hb : strIncludes yml "base theme: civictheme" <;>
          cases hc : componentsDirCheck fs p <;>
          simp [validateSubThemeDirectory, validateSubThemeDirectoryBody, h1, h2, hn, ht, hb, hc]
  · intro e h1 h2
    refine ⟨by simp [validateSubThemeDirectory, validateSubThemeDirectoryBody, h1, h2], ?_⟩
    simp only [validateSubThemeDirectory, validateSubThemeDirectoryBody, h1, h2]
    exact strIncludes_append_suffix _ _
  · intro e h1
    simp [validateSubThemeDirectory, validateSubThemeDirectoryBody, h1]

/-- C9 witness: on a filesystem where the descriptor exists but reading
it fails with EACCES, validation returns a structured `valid = false`
result carrying the error message. -/
theorem validator_never_throws_witness :
    (validateSubThemeDirectory fsReadFail "/themes/mytheme").valid = false
    ∧ strIncludes (validateSubThemeDirectory fsReadFail "/themes/mytheme").message
        "EACCES: permission denied" = true :=
  (validator_never_throws fsReadFail "/themes/mytheme").2.1 "EACCES: permission denied" rfl rfl

/-- C5: `validateConfig` returns `{valid, message}`, fails closed with a
distinct specific message for each of the four failure modes (settings
file missing, directory value missing, API key missing, target directory
inaccessible), returns `valid = true` exactly when none of the four
conditions holds, and consults the filesystem only through `fs.access`
on the configured directory (so its result is unchanged under any other
filesystem difference — in particular it never invokes the subtheme
content validator). -/
theorem config_validate_contract (fc : Option String) (env0 : List (String × String))
    (access : String → Except String Unit) :
    ((validateConfig fc env0 access).valid = true ↔
      ((loadConfig fc env0).configExists = true ∧
       (loadConfig fc env0).subthemeDirectory ≠ "" ∧
       (loadConfig fc env0).anthropicApiKey ≠ "" ∧
       access (loadConfig fc env0).subthemeDirectory = Except.ok ()))
    ∧ ((loadConfig fc env0).configExists = false →
        validateConfig fc env0 access = ⟨false, msgNoFile⟩)
    ∧ ((loadConfig fc env0).configExists = true →
        (loadConfig fc env0).subthemeDirectory = "" →
        validateConfig fc env0 access = ⟨false, msgNoDir⟩)
    ∧ ((loadConfig fc env0).configExists = true →
        (loadConfig fc env0).subthemeDirectory ≠ "" →
        (loadConfig fc env0).anthropicApiKey = "" →
        validateConfig fc env0 access = ⟨false, msgNoKey⟩)
    ∧ (∀ e, (loadConfig fc env0).configExists = true →
        (loadConfig fc env0).subthemeDirectory ≠ "" →
        (loadConfig fc env0).anthropicApiKey ≠ "" →
        access (loadConfig fc env0).subthemeDirectory = Except.error e →
        validateConfig fc env0 access = ⟨false, msgNoAccess e⟩)
    ∧ (msgNoFile ≠ msgNoDir ∧ msgNoFile ≠ msgNoKey ∧ msgNoDir ≠ msgNoKey ∧
       ∀ e, msgNoAccess e ≠ msgNoFile ∧ msgNoAccess e ≠ msgNoDir ∧
         msgNoAccess e ≠ msgNoKey ∧ msgNoAccess e ≠ msgConfigValid)
    ∧ (∀ access2 : String → Except String Unit,
        access (loadConfig fc env0).subthemeDirectory
          = access2 (loadConfig fc env0).subthemeDirectory →
        validateConfig fc env0 access = validateConfig fc env0 access2) := by
  refine ⟨?_, ?_, ?_, ?_, ?_, ?_, ?_⟩
  · cases hce : (loadConfig fc env0).configExists <;>
      by_cases hsd : (loadConfig fc env0).subthemeDirectory = "" <;>
      by_cases hak : (loadConfig fc env0).anthropicApiKey = "" <;>
      cases hacc : access (loadConfig fc env0).subthemeDirectory <;>
      simp [validateConfig, hce, hsd, hak, hacc]
  · intro hce
    simp [validateConfig, hce]
  · intro hce hsd
    simp [validateConfig, hce, hsd]
  · intro hce hsd hak
    simp [validateConfig, hce, hsd, hak]
  · intro e hce hsd hak hacc
    simp [validateConfig, hce, hsd, hak, hacc]
  · refine ⟨by decide, by decide, by decide, fun e => ⟨?_, ?_, ?_, ?_⟩⟩ <;>
      exact string_append_ne _ e _ 1 (by decide) (by decide)
  · intro access2 heq
    simp only [validateConfig]
    rw [heq]

/-- C5 witness: the contract evaluated on an absent settings file and on
a complete configuration whose directory is accessible. -/
theorem config_validate_contract_witness :
    validateConfig none [] (fun _ => Except.ok ()) = ⟨false, msgNoFile⟩
    ∧ (validateConfig (some "SUBTHEME_DIRECTORY=/themes/sub\nANTHROPIC_API_KEY=k\nANTHROPIC_MODEL=m")
        [] (fun _ => Except.ok ())).valid = true :=
  ⟨(config_validate_contract none [] (fun _ => Except.ok ())).2.1 rfl,
   ((config_validate_contract
      (some "SUBTHEME_DIRECTORY=/themes/sub\nANTHROPIC_API_KEY=k\nANTHROPIC_MODEL=m")
      [] (fun _ => Except.ok ())).1).mpr ⟨rfl, by decide, by decide, rfl⟩⟩

